import Mathlib

/-!
Verification development for the conversational session core of the melobot
repository (`src/melobot/session/base.py`, `src/melobot/utils.py`,
`src/melobot/_di.py`).

The Python code is shallowly embedded: each mutable object becomes an explicit
record, each method becomes a pure function returning the updated record
together with the list of condition-variable notifications it emitted, and
each `raise` becomes the `error` arm of an `Except`.
-/

namespace Melobot

/-! ## Session state machine (`session/base.py`)

`SessionState` and its four subclasses `SpareSessionState`,
`WorkingSessionState`, `SuspendSessionState`, `ExpireSessionState` form a
state-pattern dispatch.  The base class raises `SessionStateError` for every
operation; a subclass overrides exactly the operations that are legal in that
state.  We embed the four states as an inductive type and each operation as a
total function on an explicit session record. -/

/-- The four session states (`WorkingSessionState`, `SpareSessionState`,
`SuspendSessionState`, `ExpireSessionState`). -/
inductive SState
  | working
  | spare
  | suspended
  | expired
deriving DecidableEq, Repr

/-- `SessionStateError`: either the generic "method not supported in the
current state" raise of the base `SessionState` class, or the "rule missing"
raise inside `WorkingSessionState.rest` / `WorkingSessionState.suspend`. -/
inductive SErr
  | methodNotSupported (meth : String)
  | ruleMissing (target : String)
deriving DecidableEq, Repr

/-- Condition-variable notifications emitted by the state methods
(`refresh_cond.notify()` and `wakeup_cond.notify()`). -/
inductive SigEff
  | notifyRefresh
  | notifyWakeup
deriving DecidableEq, Repr

/-- Rules are identified by object identity in the code
(`__instances__ : dict[Rule, set[Session]]`); we name them by a `Nat` id. -/
abbrev RuleId := Nat

/-- The mutable fields of a `Session` object that the state machine and the
registry touch: `event`, `rule`, `keep` and the current `_state`.
(`store`, `refresh_cond`, `wakeup_cond` carry no state we need: conditions
are modelled by the emitted `SigEff` notifications.) -/
structure MSession (E : Type) where
  event : E
  rule : Option RuleId
  keep : Bool
  state : SState
deriving DecidableEq, Repr

/-- `Session.__init__`: a fresh session starts in `WorkingSessionState`. -/
def mkSession {E : Type} (event : E) (rule : Option RuleId) (keep : Bool) :
    MSession E :=
  { event := event, rule := rule, keep := keep, state := SState.working }

/-- `work(event)`: only `SpareSessionState` overrides it — bind the event and
move to `WorkingSessionState`; every other state raises. -/
def opWork {E : Type} (s : MSession E) (event : E) :
    Except SErr (MSession E × List SigEff) :=
  match s.state with
  | SState.spare =>
      Except.ok ({ s with event := event, state := SState.working }, [])
  | _ => Except.error (SErr.methodNotSupported "work")

/-- `rest()`: only `WorkingSessionState` overrides it — requires a rule,
notifies `refresh_cond`, moves to `SpareSessionState`. -/
def opRest {E : Type} (s : MSession E) :
    Except SErr (MSession E × List SigEff) :=
  match s.state with
  | SState.working =>
      match s.rule with
      | none => Except.error (SErr.ruleMissing "rest")
      | some _ =>
          Except.ok ({ s with state := SState.spare }, [SigEff.notifyRefresh])
  | _ => Except.error (SErr.methodNotSupported "rest")

/-- The entry half of `WorkingSessionState.suspend`: requires a rule, notifies
`refresh_cond`, moves to `SuspendSessionState`.  (The wait on `wakeup_cond`
that follows is modelled in `opSuspend`.) -/
def opSuspendEnter {E : Type} (s : MSession E) :
    Except SErr (MSession E × List SigEff) :=
  match s.state with
  | SState.working =>
      match s.rule with
      | none => Except.error (SErr.ruleMissing "suspend")
      | some _ =>
          Except.ok ({ s with state := SState.suspended }, [SigEff.notifyRefresh])
  | _ => Except.error (SErr.methodNotSupported "suspend")

/-- `wakeup(event)`: only `SuspendSessionState` overrides it — bind the event,
notify `wakeup_cond`, move to `WorkingSessionState`. -/
def opWakeup {E : Type} (s : MSession E) (event : E) :
    Except SErr (MSession E × List SigEff) :=
  match s.state with
  | SState.suspended =>
      Except.ok ({ s with event := event, state := SState.working },
        [SigEff.notifyWakeup])
  | _ => Except.error (SErr.methodNotSupported "wakeup")

/-- `expire()`: only `WorkingSessionState` overrides it — notify
`refresh_cond` when a rule is present, move to `ExpireSessionState`.
`SpareSessionState`, `SuspendSessionState` and `ExpireSessionState` inherit
the raising base implementation. -/
def opExpire {E : Type} (s : MSession E) :
    Except SErr (MSession E × List SigEff) :=
  match s.state with
  | SState.working =>
      Except.ok ({ s with state := SState.expired },
        if s.rule.isSome then [SigEff.notifyRefresh] else [])
  | _ => Except.error (SErr.methodNotSupported "expire")

/-- The full `suspend(timeout)` call: enter `SuspendSessionState` (notifying
`refresh_cond`), then await `wakeup_cond`.  The environment either performs
`wakeup(e)` on the session before the timeout (`wokenBy = some e`; the wait
completes and suspend returns `true`) or the timeout elapses first
(`wokenBy = none`; `asyncio.TimeoutError` is caught and suspend returns
`false`, the session left as the wait found it). -/
def opSuspend {E : Type} (s : MSession E) (wokenBy : Option E) :
    Except SErr (Bool × MSession E × List SigEff) :=
  match opSuspendEnter s with
  | Except.error e => Except.error e
  | Except.ok (s1, effs) =>
      match wokenBy with
      | none => Except.ok (false, s1, effs)
      | some e =>
          match opWakeup s1 e with
          | Except.error err => Except.error err
          | Except.ok (s2, effs2) => Except.ok (true, s2, effs ++ effs2)

/-! ## Session registry (`Session.get`, `Session.__instances__`)

`Session.__instances__ : dict[Rule, set[Session]]` maps each rule to the set
of sessions created under it.  Sessions are heap objects aliased by the
registry; we model the heap as a list indexed by a session id, and the
per-rule set as a list of ids (Python set iteration order becomes list
order).  The per-rule locks serialize `get`, so a single `get` call is
modelled as one atomic function. -/

/-- Session ids: indices into the session heap. -/
abbrev SId := Nat

/-- The registry state: the session heap plus `__instances__`. -/
structure Registry (E : Type) where
  sessions : List (MSession E)
  instances : List (RuleId × List SId)
deriving DecidableEq, Repr

/-- The empty registry. -/
def Registry.empty (E : Type) : Registry E := { sessions := [], instances := [] }

/-- `__instances__.setdefault(rule, set())` as a read: the id set registered
under a rule (empty when the rule has no entry yet). -/
def Registry.idsOf {E : Type} (reg : Registry E) (r : RuleId) : List SId :=
  match reg.instances.find? (fun p => p.1 = r) with
  | some p => p.2
  | none => []

/-- Store a new id list under a rule (insertion into `__instances__`). -/
def setIds (instances : List (RuleId × List SId)) (r : RuleId)
    (ids : List SId) : List (RuleId × List SId) :=
  match instances.find? (fun p => p.1 = r) with
  | some _ => instances.map (fun p => if p.1 = r then (r, ids) else p)
  | none => instances ++ [(r, ids)]

/-- The session stored at an id, if any. -/
def Registry.at? {E : Type} (reg : Registry E) (i : SId) : Option (MSession E) :=
  reg.sessions.get? i

/-- Replace the session stored at an id (mutation of the aliased object). -/
def Registry.setAt {E : Type} (reg : Registry E) (i : SId) (s : MSession E) :
    Registry E :=
  { reg with sessions := reg.sessions.set i s }

/-- The test deciding which registered ids survive the purge in
`Session.get`: an id stays unless its session is in `ExpireSessionState`
(the code collects `expires = list(filter(...))` and calls `remove` on each
before creating the fresh session). -/
def nonExpired {E : Type} (reg : Registry E) (i : SId) : Bool :=
  match reg.at? i with
  | some s => !(s.state = SState.expired)
  | none => true

/-- First id in `ids` whose session satisfies `p` (first element of a
`filter` scan of the per-rule set that also passes `rule.compare`). -/
def findFirst {E : Type} (reg : Registry E) (ids : List SId)
    (p : MSession E → Bool) : Option SId :=
  ids.find? (fun i =>
    match reg.at? i with
    | some s => p s
    | none => false)

/-- Outcomes of one `Session.get` call.  `ret` is a normal return
(`Session | None`); `blockedOn i` marks the point where the code would
`await session.refresh_cond.wait()` on session `i` — the call is parked and
its continuation depends on concurrent interleavings, which this sequential
model does not resolve. -/
inductive GetOutcome
  | ret (sid : Option SId)
  | blockedOn (sid : SId)
deriving DecidableEq, Repr

/-- Result of one `Session.get` call: the updated registry, the outcome, and
whether `nowait_cb` was invoked. -/
structure GetResult (E : Type) where
  reg : Registry E
  out : GetOutcome
  nowaitCbCalled : Bool
deriving DecidableEq, Repr

/-- `Session.get(event, rule, wait, nowait_cb, keep)`.

* `rule = None`: return a fresh unregistered one-shot session.
* Otherwise, under the per-rule lock, scan `__instances__[rule]`:
  suspended sessions first (first match is woken with the event, `None`
  returned), then spare sessions (first match is re-worked, `keep` is
  re-assigned, the session returned), then working sessions (first match:
  with `wait = False` call `nowait_cb` if present and return `None`;
  with `wait = True` the call blocks on `refresh_cond`).
* If nothing consumed the event: the ids that are in `ExpireSessionState`
  are removed from `__instances__[rule]`, a fresh session is created,
  registered, and returned.

`cmp r a b` stands for `await rule.compare(a, b)` for the rule with id `r`;
`hasNowaitCb` records whether `nowait_cb` was passed. -/
def getFn {E : Type} (cmp : RuleId → E → E → Bool) (reg : Registry E)
    (event : E) (rule : Option RuleId) (wait : Bool) (hasNowaitCb : Bool)
    (keep : Bool) : GetResult E :=
  match rule with
  | none =>
      let sid := reg.sessions.length
      { reg := { reg with sessions := reg.sessions ++ [mkSession event none keep] },
        out := GetOutcome.ret (some sid), nowaitCbCalled := false }
  | some r =>
      let ids := reg.idsOf r
      match findFirst reg ids
          (fun s => s.state = SState.suspended && cmp r s.event event) with
      | some i =>
          match reg.at? i with
          | some s =>
              { reg := reg.setAt i { s with event := event, state := SState.working },
                out := GetOutcome.ret none, nowaitCbCalled := false }
          | none => { reg := reg, out := GetOutcome.ret none, nowaitCbCalled := false }
      | none =>
      match findFirst reg ids
          (fun s => s.state = SState.spare && cmp r s.event event) with
      | some i =>
          match reg.at? i with
          | some s =>
              { reg := reg.setAt i
                  { s with event := event, state := SState.working, keep := keep },
                out := GetOutcome.ret (some i), nowaitCbCalled := false }
          | none => { reg := reg, out := GetOutcome.ret (some i), nowaitCbCalled := false }
      | none =>
      match findFirst reg ids
          (fun s => s.state = SState.working && cmp r s.event event) with
      | some i =>
          if wait then
            { reg := reg, out := GetOutcome.blockedOn i, nowaitCbCalled := false }
          else
            { reg := reg, out := GetOutcome.ret none, nowaitCbCalled := hasNowaitCb }
      | none =>
          let keptIds := ids.filter (nonExpired reg)
          let sid := reg.sessions.length
          { reg := { sessions := reg.sessions ++ [mkSession event (some r) keep],
                     instances := setIds reg.instances r (keptIds ++ [sid]) },
            out := GetOutcome.ret (some sid), nowaitCbCalled := false }

/-- `await session.expire()` on the heap session at id `i` (as `Session.ctx`
does on exit): the state-machine transition is applied to the aliased object;
`__instances__` is not touched. -/
def expireInReg {E : Type} (reg : Registry E) (i : SId) :
    Except SErr (Registry E × List SigEff) :=
  match reg.at? i with
  | none => Except.error (SErr.methodNotSupported "expire")
  | some s =>
      match opExpire s with
      | Except.error e => Except.error e
      | Except.ok (s1, effs) => Except.ok (reg.setAt i s1, effs)

/-! ## The scoped region `Session.ctx`

```
with _SESSION_CTX.on_ctx(self):
    try:
        yield self
    except asyncio.CancelledError:
        if self.on_state(SuspendSessionState):
            await self.wakeup(self.event)
    finally:
        if self.keep:
            await self.rest()
        else:
            await self.expire()
```
-/

/-- How the handler body inside `Session.ctx` terminates. -/
inductive ExitKind
  | normal
  | exceptional
  | cancelled
deriving DecidableEq, Repr

/-- The exit path of `Session.ctx`: on `CancelledError`, a session still in
`SuspendSessionState` is first woken with its current event; then, on every
path, `keep` selects `rest()` and its negation selects `expire()`. -/
def ctxExit {E : Type} (s : MSession E) (k : ExitKind) :
    Except SErr (MSession E × List SigEff) :=
  let step1 : Except SErr (MSession E × List SigEff) :=
    if k = ExitKind.cancelled && s.state = SState.suspended then
      opWakeup s s.event
    else
      Except.ok (s, [])
  match step1 with
  | Except.error e => Except.error e
  | Except.ok (s1, effs) =>
      match (if s1.keep then opRest s1 else opExpire s1) with
      | Except.error e => Except.error e
      | Except.ok (s2, effs2) => Except.ok (s2, effs ++ effs2)

/-! ## Twin events (`utils.py`, `AsyncTwinEvent` / `get_twin_event`)

`AsyncTwinEvent.set` sets its own flag and clears the twin through the plain
`asyncio.Event` methods (no propagation back); `clear` clears its own flag
and sets the twin.  `get_twin_event` builds two fresh (unset) events and
binds each to the other. -/

/-- The pair of flags of two bound `AsyncTwinEvent`s. -/
structure TwinPair where
  a : Bool
  b : Bool
deriving DecidableEq, Repr

/-- The four mutating operations on a bound pair. -/
inductive TwinOp
  | setA
  | clearA
  | setB
  | clearB
deriving DecidableEq, Repr

/-- One `set()`/`clear()` call: `set` on one side leaves `(true, false)` or
`(false, true)` with the called side true; `clear` leaves the called side
false and the twin true. -/
def twinStep (_p : TwinPair) (op : TwinOp) : TwinPair :=
  match op with
  | TwinOp.setA => { a := true, b := false }
  | TwinOp.clearA => { a := false, b := true }
  | TwinOp.setB => { a := false, b := true }
  | TwinOp.clearB => { a := true, b := false }

/-- `a.bind(b)`: `b` becomes `a`'s twin and is forced to the opposite of
`a`'s current flag (via the superclass `set`/`clear`, so no propagation). -/
def bindFirst (p : TwinPair) : TwinPair :=
  if p.a then { p with b := false } else { p with b := true }

/-- `b.bind(a)`: symmetric to `bindFirst`. -/
def bindSecond (p : TwinPair) : TwinPair :=
  if p.b then { p with a := false } else { p with a := true }

/-- `get_twin_event()`: two fresh unset events, then `a.bind(b); b.bind(a)`. -/
def getTwinEvent : TwinPair :=
  bindSecond (bindFirst { a := false, b := false })

/-! ## Decorator construction checks (`utils.py`)

`speedlimit` raises `ValidateError` when `limit <= 0` or `duration <= 0`;
`cooldown` performs no validation at all — its body only creates the lock and
computes the initial `pre_finish_t = perf_counter() - interval - 1`;
`async_guard` raises `ValidateError` when its argument is not callable, or
when the call result is not awaitable. -/

/-- The `ValidateError` raises reachable from this code. -/
inductive VErr
  | speedlimitLimit
  | speedlimitDuration
  | notCallable
  | notAwaitable
deriving DecidableEq, Repr

/-- Construction of the `speedlimit` decorator (its two guard checks). -/
def speedlimitInit (limit duration : Int) : Except VErr Unit :=
  if limit ≤ 0 then Except.error VErr.speedlimitLimit
  else if duration ≤ 0 then Except.error VErr.speedlimitDuration
  else Except.ok ()

/-- Construction of the `cooldown` decorator at clock value `now`: no
parameter check exists in the source; the body just computes the initial
`pre_finish_t`. -/
def cooldownInit (now interval : Int) : Except VErr Int :=
  Except.ok (now - interval - 1)

/-- The decision `wrapped_func` of `cooldown` takes on one call, given
whether each optional callback was supplied, whether the lock is currently
held, the elapsed time `duration = perf_counter() - pre_finish_t` and the
configured `interval`. -/
inductive CdOutcome
  | busyCb
  | runNow
  | cdCb (remain : Int)
  | sleepThenRun (remain : Int)
deriving DecidableEq, Repr

/-- The branch structure of `cooldown`'s `wrapped_func`. -/
def cooldownCall (busyCbPresent cdCbPresent locked : Bool)
    (duration interval : Int) : CdOutcome :=
  if busyCbPresent && locked then CdOutcome.busyCb
  else if duration > interval then CdOutcome.runNow
  else if cdCbPresent then CdOutcome.cdCb (interval - duration)
  else CdOutcome.sleepThenRun (interval - duration)

/-- What `async_guard` observes about its argument: not callable at all,
callable returning an awaitable producing `v`, or callable returning the
plain value `v`. -/
inductive PyCallable
  | notCallable
  | returnsAwaitable (v : Nat)
  | returnsPlain (v : Nat)
deriving DecidableEq, Repr

/-- `async_guard(func, ...)`: raise unless `func` is callable and its result
awaitable; otherwise await and return the result. -/
def asyncGuard (f : PyCallable) : Except VErr Nat :=
  match f with
  | PyCallable.notCallable => Except.error VErr.notCallable
  | PyCallable.returnsAwaitable v => Except.ok v
  | PyCallable.returnsPlain _ => Except.error VErr.notAwaitable

/-! ## Dependency injection (`_di.py`)

`AutoDepends.__init__` classifies a parameter's type hint into a context
source by an ordered `is_subhint` chain (a `CustomLogger` metadata tag short-
circuits to the logger context); `AutoDepends.fulfill` fetches the value and
then applies the metadata / type checks, raising `DependNotMatched` on
mismatch.  Runtime type tests are opaque to the embedding: a hint is
modelled by its subhint flags against the seven context types plus the set
of runtime type ids it accepts (`is_type`); a value carries its exact type
id and the ids it is an `isinstance` of. -/

/-- A runtime value: its exact type id (`type(val)`) and the type ids it is
an instance of (for the `Exclude` `isinstance` checks). -/
structure Val where
  ty : Nat
  classes : List Nat
deriving DecidableEq, Repr

/-- A type hint, by the outcomes of the `is_subhint` tests performed in
`AutoDepends.__init__` and by the runtime types `is_type` accepts. -/
structure HintM where
  loggerSub : Bool
  storeSub : Bool
  ruleSub : Bool
  botSub : Bool
  adapterSub : Bool
  eventSub : Bool
  tys : List Nat
deriving DecidableEq, Repr

/-- `is_type(val, hint)` of the embedding: the hint accepts the value's
runtime type. -/
def isTypeOf (v : Val) (h : HintM) : Bool :=
  h.tys.contains v.ty

/-- The Annotated metadata on a parameter: none, `Exclude(types)`, or
`CustomLogger(getter)` whose getter yields `getterVal`. -/
inductive Metadata
  | noMeta
  | exclude (types : List Nat)
  | customLogger (getterVal : Val)
deriving DecidableEq, Repr

/-- The context sources `orig_getter` can draw from. -/
inductive CtxSource
  | logger
  | store
  | ruleOpt
  | bot
  | adapter
  | eventVal
deriving DecidableEq, Repr

/-- One auto-injected parameter: the function and argument names (used in
the raised error), the declared hint and its metadata. -/
structure AutoDep where
  funcName : String
  argName : String
  hint : HintM
  metadata : Metadata
deriving DecidableEq, Repr

/-- The `orig_getter` selection chain of `AutoDepends.__init__`: a
`CustomLogger` tag selects the logger context, then the `is_subhint` tests
run in source order; `none` marks the final `DependInitError` raise. -/
def classifyHint (md : Metadata) (h : HintM) : Option CtxSource :=
  match md with
  | Metadata.customLogger _ => some CtxSource.logger
  | _ =>
      if h.loggerSub then some CtxSource.logger
      else if h.storeSub then some CtxSource.store
      else if h.ruleSub then some CtxSource.ruleOpt
      else if h.botSub then some CtxSource.bot
      else if h.adapterSub then some CtxSource.adapter
      else if h.eventSub then some CtxSource.eventVal
      else none

/-- The errors the injector raises at resolution time: `DependInitError`
(no context source fits the hint) or `DependNotMatched` carrying
`(func_name, arg_name, real_type, hint)`. -/
inductive DiErr
  | initErr
  | notMatched (funcName argName : String) (realType : Nat) (hint : HintM)
deriving DecidableEq, Repr

/-- `AutoDepends.fulfill`: fetch the value from the classified context
source, then

* `Exclude` metadata: raise `DependNotMatched` when the value is an instance
  of a listed type, else fall through to the final `is_type` check;
* `CustomLogger` metadata: return the fetched value when it conforms, else
  return the getter's value;
* no metadata with a logger-subhint: return the fetched value unchecked;
* otherwise: final `is_type` check, raising `DependNotMatched` on failure. -/
def autoResolve (d : AutoDep) (ctx : CtxSource → Val) : Except DiErr Val :=
  match classifyHint d.metadata d.hint with
  | none => Except.error DiErr.initErr
  | some src =>
      let val := ctx src
      match d.metadata with
      | Metadata.exclude ts =>
          if ts.any (fun t => val.classes.contains t) then
            Except.error (DiErr.notMatched d.funcName d.argName val.ty d.hint)
          else if isTypeOf val d.hint then Except.ok val
          else Except.error (DiErr.notMatched d.funcName d.argName val.ty d.hint)
      | Metadata.customLogger g =>
          if isTypeOf val d.hint then Except.ok val else Except.ok g
      | Metadata.noMeta =>
          if d.hint.loggerSub then Except.ok val
          else if isTypeOf val d.hint then Except.ok val
          else Except.error (DiErr.notMatched d.funcName d.argName val.ty d.hint)

/-- The wrapper produced by `inject_deps`: every injected parameter is
resolved before the user callback runs, so the first raising parameter
aborts the call and the body is never entered.  Returns the resolved
argument values on success. -/
def injectAndCall (ds : List AutoDep) (ctx : CtxSource → Val) :
    Except DiErr (List Val) :=
  match ds with
  | [] => Except.ok []
  | d :: rest =>
      match autoResolve d ctx with
      | Except.error e => Except.error e
      | Except.ok v =>
          match injectAndCall rest ctx with
          | Except.error e => Except.error e
          | Except.ok vs => Except.ok (v :: vs)

/-! ### Cached `Depends` (`Depends.fulfill` / `Depends._get`)

A `Depends(dep, cache=True)` keeps `_cached`; `fulfill` returns `_cached`
when set, otherwise runs the getter once and stores the result, and always
records the value in the per-call `dep_scope`.  A `Depends(other)` built
from another `Depends` has `ref = other`: its `_get` first consults
`dep_scope` and only falls back to `ref.fulfill` on a miss.  The factory is
modelled by `f : Nat → Nat` giving the value produced by its n-th
invocation, so a factory that is not constant is covered. -/

/-- The state threaded through one resolution that touches a cached
`Depends` `D`: `D._cached`, the number of factory invocations so far, and
the `dep_scope` entry for `D`. -/
structure CacheRun where
  cached : Option Nat
  calls : Nat
  scopeD : Option Nat
deriving DecidableEq, Repr

/-- `D.fulfill(dep_scope)` for `D` with `cache=True`: return the cache when
present, otherwise invoke the factory once and fill it; either way write the
value into `dep_scope`. -/
def fulfillD (f : Nat → Nat) (st : CacheRun) : Nat × CacheRun :=
  match st.cached with
  | some v => (v, { st with scopeD := some v })
  | none =>
      let v := f st.calls
      (v, { cached := some v, calls := st.calls + 1, scopeD := some v })

/-- `_get` of a `Depends` whose `ref` is `D`: consult `dep_scope` first and
fall back to `D.fulfill` on a miss. -/
def fulfillRef (f : Nat → Nat) (st : CacheRun) : Nat × CacheRun :=
  match st.scopeD with
  | some v => (v, st)
  | none => fulfillD f st

/-- One access to `D` during a resolution: a direct `D.fulfill` call or a
reference through another `Depends`. -/
inductive Access
  | direct
  | viaRef
deriving DecidableEq, Repr

/-- Run a sequence of accesses to `D`, collecting the returned values. -/
def runAccesses (f : Nat → Nat) : List Access → CacheRun → List Nat × CacheRun
  | [], st => ([], st)
  | acc :: rest, st =>
      let (v, st1) :=
        match acc with
        | Access.direct => fulfillD f st
        | Access.viaRef => fulfillRef f st
      let (vs, st2) := runAccesses f rest st1
      (v :: vs, st2)

/-- The state of a fresh cached `Depends` before any resolution. -/
def freshCacheRun : CacheRun := { cached := none, calls := 0, scopeD := none }

/-! ## Theorems -/

/-- C2: the state/operation table as the code implements it.  Legal
transitions: `work` from Spare (binds the event), `rest` and the suspend
entry from Working (rule required, `refresh_cond` notified), `wakeup` from
Suspended (binds the event, `wakeup_cond` notified), `expire` from Working
(`refresh_cond` notified iff a rule is present).  Every other (state,
operation) pair raises `SessionStateError` — including `expire()` on Spare,
Suspended and Expired sessions, which the spec's table marks legal or no-op.

This is the amended table: `SpareSessionState`, `SuspendSessionState` and
`ExpireSessionState` inherit the raising base implementation of `expire`. -/
theorem C2_state_table (s : MSession Nat) (e : Nat) :
    (s.state = SState.spare →
      opWork s e = Except.ok ({ s with event := e, state := SState.working }, [])) ∧
    (s.state ≠ SState.spare →
      opWork s e = Except.error (SErr.methodNotSupported "work")) ∧
    (s.state = SState.working → s.rule = none →
      opRest s = Except.error (SErr.ruleMissing "rest")) ∧
    (s.state = SState.working → s.rule.isSome →
      opRest s = Except.ok ({ s with state := SState.spare }, [SigEff.notifyRefresh])) ∧
    (s.state ≠ SState.working →
      opRest s = Except.error (SErr.methodNotSupported "rest")) ∧
    (s.state = SState.working → s.rule = none →
      opSuspendEnter s = Except.error (SErr.ruleMissing "suspend")) ∧
    (s.state = SState.working → s.rule.isSome →
      opSuspendEnter s = Except.ok ({ s with state := SState.suspended },
        [SigEff.notifyRefresh])) ∧
    (s.state ≠ SState.working →
      opSuspendEnter s = Except.error (SErr.methodNotSupported "suspend")) ∧
    (s.state = SState.suspended →
      opWakeup s e = Except.ok ({ s with event := e, state := SState.working },
        [SigEff.notifyWakeup])) ∧
    (s.state ≠ SState.suspended →
      opWakeup s e = Except.error (SErr.methodNotSupported "wakeup")) ∧
    (s.state = SState.working →
      opExpire s = Except.ok ({ s with state := SState.expired },
        if s.rule.isSome then [SigEff.notifyRefresh] else [])) ∧
    (s.state ≠ SState.working →
      opExpire s = Except.error (SErr.methodNotSupported "expire")) := by
  obtain ⟨ev, r, k, st⟩ := s
  cases st <;> cases r <;>
    simp_all [opWork, opRest, opSuspendEnter, opWakeup, opExpire]

/-- C2 witness: the table theorem applied to a concrete Spare session. -/
theorem C2_state_table_witness :
    opWork ({ event := 0, rule := some 0, keep := false,
              state := SState.spare } : MSession Nat) 1 =
      Except.ok ({ event := 1, rule := some 0, keep := false,
                   state := SState.working }, []) :=
  (C2_state_table { event := 0, rule := some 0, keep := false,
                    state := SState.spare } 1).1 rfl

/-- C2 counterexample: `expire()` on an Expired session is not a no-op — the
session reaches Expired by a first `expire()` from Working, and a second
`expire()` raises `SessionStateError`, where the claim demands a no-op that
does not raise. -/
theorem C2_counterexample :
    opExpire (mkSession (0 : Nat) (some 0) false) =
      Except.ok ({ event := 0, rule := some 0, keep := false,
                   state := SState.expired }, [SigEff.notifyRefresh]) ∧
    opExpire ({ event := 0, rule := some 0, keep := false,
                state := SState.expired } : MSession Nat) =
      Except.error (SErr.methodNotSupported "expire") := by
  constructor <;> rfl

/-- C3: `suspend(timeout)` on a Working session with a rule notifies
`refresh_cond` and moves the session to Suspended; if the environment wakes
it with an event before the timeout it returns `true` with the event bound
and the session back in Working (with `wakeup_cond` notified), and on
timeout it returns `false` with the session still Suspended.  In any state
other than Working, or on a ruleless session, it raises
`SessionStateError`. -/
theorem C3_suspend (s : MSession Nat) (e : Nat)
    (hs : s.state = SState.working) (hr : s.rule.isSome) :
    opSuspend s none =
      Except.ok (false, { s with state := SState.suspended },
        [SigEff.notifyRefresh]) ∧
    opSuspend s (some e) =
      Except.ok (true, { s with event := e, state := SState.working },
        [SigEff.notifyRefresh, SigEff.notifyWakeup]) ∧
    (∀ t : MSession Nat, t.state ≠ SState.working → ∀ w,
      opSuspend t w = Except.error (SErr.methodNotSupported "suspend")) ∧
    (∀ t : MSession Nat, t.state = SState.working → t.rule = none → ∀ w,
      opSuspend t w = Except.error (SErr.ruleMissing "suspend")) := by
  obtain ⟨ev, r, k, st⟩ := s
  subst hs
  obtain ⟨r0, hr0⟩ := Option.isSome_iff_exists.mp hr
  subst hr0
  refine ⟨rfl, rfl, ?_, ?_⟩
  · intro t ht w
    obtain ⟨ev1, r1, k1, st1⟩ := t
    cases st1 <;> simp_all [opSuspend, opSuspendEnter]
  · intro t ht hrt w
    obtain ⟨ev1, r1, k1, st1⟩ := t
    cases st1 <;> simp_all [opSuspend, opSuspendEnter]

/-- C3 witness: the suspend theorem applied to a concrete Working session. -/
theorem C3_suspend_witness :
    opSuspend (mkSession (0 : Nat) (some 0) false) none =
      Except.ok (false, { event := 0, rule := some 0, keep := false,
                          state := SState.suspended }, [SigEff.notifyRefresh]) :=
  (C3_suspend (mkSession (0 : Nat) (some 0) false) 1 rfl rfl).1

/-- C5: exit paths of `Session.ctx`.  On a cancelled exit of a Suspended
session, the session is first woken with its own current event (notifying
`wakeup_cond`); then, on every exit path, `keep = true` drives
Working → Spare via `rest()` and `keep = false` drives the session to
Expired via `expire()`. -/
theorem C5_ctx_exit (s : MSession Nat) (k : ExitKind) :
    (s.state = SState.working → s.keep = true → s.rule.isSome →
      ctxExit s k = Except.ok ({ s with state := SState.spare },
        [SigEff.notifyRefresh])) ∧
    (s.state = SState.working → s.keep = false →
      ctxExit s k = Except.ok ({ s with state := SState.expired },
        if s.rule.isSome then [SigEff.notifyRefresh] else [])) ∧
    (k = ExitKind.cancelled → s.state = SState.suspended → s.keep = true →
      s.rule.isSome →
      ctxExit s k = Except.ok ({ s with state := SState.spare },
        [SigEff.notifyWakeup, SigEff.notifyRefresh])) ∧
    (k = ExitKind.cancelled → s.state = SState.suspended → s.keep = false →
      ctxExit s k = Except.ok ({ s with state := SState.expired },
        SigEff.notifyWakeup ::
          (if s.rule.isSome then [SigEff.notifyRefresh] else []))) := by
  obtain ⟨ev, r, k0, st⟩ := s
  cases st <;> cases k <;> cases k0 <;> cases r <;>
    simp_all [ctxExit, opWakeup, opRest, opExpire]

/-- C5 witness: the ctx-exit theorem applied to a cancelled exit of a
concrete Suspended session with `keep = false`. -/
theorem C5_ctx_exit_witness :
    ctxExit ({ event := 3, rule := some 0, keep := false,
               state := SState.suspended } : MSession Nat) ExitKind.cancelled =
      Except.ok ({ event := 3, rule := some 0, keep := false,
                   state := SState.expired },
        SigEff.notifyWakeup :: [SigEff.notifyRefresh]) :=
  (C5_ctx_exit ({ event := 3, rule := some 0, keep := false,
                  state := SState.suspended } : MSession Nat)
    ExitKind.cancelled).2.2.2 rfl rfl rfl

/-- Every twin operation leaves the pair in one of the two balanced
configurations, so the exclusive-or invariant is preserved by any suffix of
operations. -/
lemma twin_foldl_xor (ops : List TwinOp) (p : TwinPair)
    (hp : xor p.a p.b = true) :
    xor (ops.foldl twinStep p).a (ops.foldl twinStep p).b = true := by
  induction ops generalizing p with
  | nil => exact hp
  | cons op rest ih =>
      cases op <;> exact ih _ (by rfl)

/-- C6: for a twin pair produced by `get_twin_event`, exactly one of the two
events is set after construction (the second one), and the exclusive-or
invariant `A.set ⊕ B.set` holds after every sequence of `set()`/`clear()`
operations on either side. -/
theorem C6_twin_invariant (ops : List TwinOp) :
    xor getTwinEvent.a getTwinEvent.b = true ∧
    getTwinEvent = { a := false, b := true } ∧
    xor (ops.foldl twinStep getTwinEvent).a
      (ops.foldl twinStep getTwinEvent).b = true :=
  ⟨rfl, rfl, twin_foldl_xor ops getTwinEvent rfl⟩

/-- C7 counterexample: constructing `cooldown` with the non-positive
interval `-1` does not raise — the decorator body contains no parameter
validation; it only computes the initial `pre_finish_t`.  The claim demands
a `ValidationError` here. -/
theorem C7_counterexample :
    cooldownInit 0 (-1) = Except.ok 0 := by
  rfl

/-- C7 amended: `speedlimit` raises `ValidateError` exactly when
`limit <= 0` (first) or `duration <= 0` (second); `async_guard` raises
`ValidateError` on a non-callable argument (and on a callable whose result
is not awaitable); `cooldown` performs no construction-time validation, for
any interval. -/
theorem C7_validation (limit duration now interval : Int) (v : Nat) :
    (limit ≤ 0 → speedlimitInit limit duration = Except.error VErr.speedlimitLimit) ∧
    (0 < limit → duration ≤ 0 →
      speedlimitInit limit duration = Except.error VErr.speedlimitDuration) ∧
    (0 < limit → 0 < duration → speedlimitInit limit duration = Except.ok ()) ∧
    cooldownInit now interval = Except.ok (now - interval - 1) ∧
    asyncGuard PyCallable.notCallable = Except.error VErr.notCallable ∧
    asyncGuard (PyCallable.returnsPlain v) = Except.error VErr.notAwaitable ∧
    asyncGuard (PyCallable.returnsAwaitable v) = Except.ok v := by
  refine ⟨?_, ?_, ?_, rfl, rfl, rfl, rfl⟩
  · intro h
    simp [speedlimitInit, h]
  · intro h1 h2
    simp [speedlimitInit, h2, not_le.mpr h1]
  · intro h1 h2
    simp [speedlimitInit, not_le.mpr h1, not_le.mpr h2]

/-- C7 witness: the validation theorem applied to `limit = 0`,
`duration = 5`: construction of `speedlimit` raises on the non-positive
limit. -/
theorem C7_validation_witness :
    speedlimitInit 0 5 = Except.error VErr.speedlimitLimit :=
  (C7_validation 0 5 0 5 0).1 (by decide)

/-- Once the cache and the per-call scope both hold `v`, every further
access (direct or through a reference) returns `v` and leaves the state
untouched. -/
lemma runAccesses_stable (f : Nat → Nat) (accs : List Access) (v c : Nat) :
    runAccesses f accs { cached := some v, calls := c, scopeD := some v } =
      (List.replicate accs.length v,
       { cached := some v, calls := c, scopeD := some v }) := by
  induction accs with
  | nil => rfl
  | cons a rest ih =>
      cases a <;> simp [runAccesses, fulfillD, fulfillRef, ih, List.replicate]

/-- C9: a `Depends` with `cache=True`, starting fresh, runs its factory
exactly once over any non-empty sequence of fulfillments — whether they hit
it directly or through referencing `Depends` deduplicated by the per-call
`dep_scope` — and every fulfillment returns the value of the first factory
invocation. -/
theorem C9_cache_once (f : Nat → Nat) (accs : List Access)
    (h : accs ≠ []) :
    (runAccesses f accs freshCacheRun).1 =
      List.replicate accs.length (f 0) ∧
    (runAccesses f accs freshCacheRun).2.calls = 1 ∧
    (runAccesses f accs freshCacheRun).2.cached = some (f 0) := by
  match accs, h with
  | a :: rest, _ =>
      have hstep :
          (match a with
            | Access.direct => fulfillD f freshCacheRun
            | Access.viaRef => fulfillRef f freshCacheRun) =
          (f 0, { cached := some (f 0), calls := 1, scopeD := some (f 0) }) := by
        cases a <;> rfl
      simp [runAccesses, hstep, runAccesses_stable, List.replicate]

/-- C9 witness: three fulfillments (direct, via a reference, direct again)
of a fresh cached `Depends` with the factory `fun n => 10 * n + 3`: one
factory call, and all three results equal the first. -/
theorem C9_cache_once_witness :
    (runAccesses (fun n => 10 * n + 3)
        [Access.direct, Access.viaRef, Access.direct] freshCacheRun).1 =
      List.replicate 3 ((fun n : Nat => 10 * n + 3) 0) ∧
    (runAccesses (fun n => 10 * n + 3)
        [Access.direct, Access.viaRef, Access.direct] freshCacheRun).2.calls = 1 ∧
    (runAccesses (fun n => 10 * n + 3)
        [Access.direct, Access.viaRef, Access.direct] freshCacheRun).2.cached =
      some ((fun n : Nat => 10 * n + 3) 0) :=
  C9_cache_once (fun n => 10 * n + 3)
    [Access.direct, Access.viaRef, Access.direct] (by decide)

/-- C8 counterexample: a parameter whose hint is a subhint of the logger
type and that carries no metadata is returned unchecked — here the fetched
value's runtime type (`5`) satisfies no hint (`tys = []`), yet `fulfill`
returns it instead of raising `DependNotMatched`, where the claim demands a
raise on every runtime type mismatch. -/
theorem C8_counterexample :
    autoResolve
      { funcName := "f", argName := "x",
        hint := { loggerSub := true, storeSub := false, ruleSub := false,
                  botSub := false, adapterSub := false, eventSub := false,
                  tys := [] },
        metadata := Metadata.noMeta }
      (fun _ => { ty := 5, classes := [5] }) =
      Except.ok { ty := 5, classes := [5] } := by
  rfl

/-- C8 amended: `AutoDepends.fulfill` raises `DependNotMatched` carrying
`(func_name, arg_name, real_type, hint)` when the fetched value is an
instance of an `Exclude`-listed type or (failing that) does not satisfy the
hint, and — for untagged parameters — when the hint is not a logger subhint
and the value does not satisfy it; a raising parameter aborts the wrapped
call before the user callback body runs.  (Logger-subhint parameters without
metadata are returned unchecked, and `CustomLogger` mismatches substitute
the getter value instead of raising.) -/
theorem C8_depend_not_matched (d : AutoDep) (ctx : CtxSource → Val)
    (src : CtxSource) (ts : List Nat) (rest : List AutoDep) (err : DiErr)
    (hcls : classifyHint d.metadata d.hint = some src) :
    (d.metadata = Metadata.exclude ts →
      (ts.any (fun t => (ctx src).classes.contains t) = true ∨
        isTypeOf (ctx src) d.hint = false) →
      autoResolve d ctx =
        Except.error (DiErr.notMatched d.funcName d.argName (ctx src).ty d.hint)) ∧
    (d.metadata = Metadata.noMeta → d.hint.loggerSub = false →
      isTypeOf (ctx src) d.hint = false →
      autoResolve d ctx =
        Except.error (DiErr.notMatched d.funcName d.argName (ctx src).ty d.hint)) ∧
    (autoResolve d ctx = Except.error err →
      injectAndCall (d :: rest) ctx = Except.error err) := by
  refine ⟨?_, ?_, ?_⟩
  · intro hmd hmis
    rw [hmd] at hcls
    cases hmis with
    | inl hex =>
        simp [autoResolve, hmd, hcls, hex]
        intro hall
        rcases List.any_eq_true.mp hex with ⟨t, ht, htc⟩
        have htm : t ∈ (ctx src).classes := by simpa using htc
        exact absurd htm (hall t ht)
    | inr hty =>
        by_cases hex : ts.any (fun t => (ctx src).classes.contains t) = true
        · simp [autoResolve, hmd, hcls, hex]
          intro hall
          rcases List.any_eq_true.mp hex with ⟨t, ht, htc⟩
          have htm : t ∈ (ctx src).classes := by simpa using htc
          exact absurd htm (hall t ht)
        · simp [autoResolve, hmd, hcls, hex, hty]
  · intro hmd hlog hty
    rw [hmd] at hcls
    simp [autoResolve, hmd, hcls, hlog, hty]
  · intro herr
    simp [injectAndCall, herr]

/-- C8 witness: the amended theorem applied to a concrete `Exclude`-tagged
parameter whose fetched value is an instance of an excluded type. -/
theorem C8_depend_not_matched_witness :
    autoResolve
      { funcName := "g", argName := "y",
        hint := { loggerSub := false, storeSub := false, ruleSub := false,
                  botSub := false, adapterSub := false, eventSub := true,
                  tys := [7] },
        metadata := Metadata.exclude [7] }
      (fun _ => { ty := 7, classes := [7] }) =
      Except.error (DiErr.notMatched "g" "y" 7
        { loggerSub := false, storeSub := false, ruleSub := false,
          botSub := false, adapterSub := false, eventSub := true,
          tys := [7] }) :=
  (C8_depend_not_matched
    { funcName := "g", argName := "y",
      hint := { loggerSub := false, storeSub := false, ruleSub := false,
                botSub := false, adapterSub := false, eventSub := true,
                tys := [7] },
      metadata := Metadata.exclude [7] }
    (fun _ => { ty := 7, classes := [7] }) CtxSource.eventVal [7] [] DiErr.initErr
    (by rfl)).1 rfl (Or.inl (by decide))

/-- C10: an untagged parameter whose hint is a subhint of the logger type is
classified to the logger context stack and `fulfill` returns the fetched
value without any runtime type check, so no `DependNotMatched` is ever
raised for it, whatever the fetched value is. -/
theorem C10_logger_unchecked (d : AutoDep) (ctx : CtxSource → Val)
    (hmd : d.metadata = Metadata.noMeta) (hlog : d.hint.loggerSub = true) :
    classifyHint d.metadata d.hint = some CtxSource.logger ∧
    autoResolve d ctx = Except.ok (ctx CtxSource.logger) := by
  have hcls : classifyHint d.metadata d.hint = some CtxSource.logger := by
    rw [hmd]
    simp [classifyHint, hlog]
  refine ⟨hcls, ?_⟩
  rw [hmd] at hcls
  simp [autoResolve, hmd, hcls, hlog]

/-- C10 witness: the logger-bypass theorem applied to a concrete untagged
logger-subhint parameter and a context whose logger value matches no hint. -/
theorem C10_logger_unchecked_witness :
    autoResolve
      { funcName := "h", argName := "z",
        hint := { loggerSub := true, storeSub := false, ruleSub := false,
                  botSub := false, adapterSub := false, eventSub := false,
                  tys := [1] },
        metadata := Metadata.noMeta }
      (fun _ => { ty := 9, classes := [9] }) =
      Except.ok { ty := 9, classes := [9] } :=
  (C10_logger_unchecked
    { funcName := "h", argName := "z",
      hint := { loggerSub := true, storeSub := false, ruleSub := false,
                botSub := false, adapterSub := false, eventSub := false,
                tys := [1] },
      metadata := Metadata.noMeta }
    (fun _ => { ty := 9, classes := [9] }) rfl rfl).2

/-- After `setIds`, looking the rule up in `__instances__` yields exactly
the stored id list. -/
lemma setIds_find (instances : List (RuleId × List SId)) (r : RuleId)
    (ids : List SId) :
    (setIds instances r ids).find? (fun p => p.1 = r) = some (r, ids) := by
  induction instances with
  | nil =>
      unfold setIds
      simp
  | cons a tl ih =>
      by_cases ha : a.1 = r
      · have hfind : (a :: tl).find? (fun p => p.1 = r) = some a :=
          List.find?_cons_of_pos _ (by simpa using ha)
        unfold setIds
        rw [hfind, List.map_cons, if_pos ha]
        exact List.find?_cons_of_pos _ (by simp)
      · have hna : ¬ ((fun p : RuleId × List SId => decide (p.1 = r)) a = true) := by
          simpa using ha
        rcases h2 : tl.find? (fun p => p.1 = r) with _ | x
        · have htl : setIds tl r ids = tl ++ [(r, ids)] := by
            unfold setIds
            rw [h2]
          have hfind : (a :: tl).find? (fun p => p.1 = r) = none :=
            (List.find?_cons_of_neg tl hna).trans h2
          unfold setIds
          rw [hfind, List.cons_append]
          exact (List.find?_cons_of_neg (tl ++ [(r, ids)]) hna).trans (htl ▸ ih)
        · have hmap : setIds tl r ids =
              tl.map (fun p => if p.1 = r then (r, ids) else p) := by
            unfold setIds
            rw [h2]
          have hfind : (a :: tl).find? (fun p => p.1 = r) = some x :=
            (List.find?_cons_of_neg tl hna).trans h2
          unfold setIds
          rw [hfind, List.map_cons, if_neg ha]
          exact (List.find?_cons_of_neg
            (tl.map (fun p => if p.1 = r then (r, ids) else p)) hna).trans (hmap ▸ ih)

/-- The per-rule id list after `setIds`. -/
lemma idsOf_setIds {E : Type} (sessions : List (MSession E))
    (instances : List (RuleId × List SId)) (r : RuleId) (ids : List SId) :
    Registry.idsOf { sessions := sessions, instances := setIds instances r ids } r
      = ids := by
  simp [Registry.idsOf, setIds_find]

/-- When no suspended, spare or working session matches, `Session.get`
takes the creation path: the expired ids are dropped from
`__instances__[rule]`, and a fresh Working session is appended to the heap
and registered. -/
lemma getFn_create {E : Type} (cmp : RuleId → E → E → Bool) (reg : Registry E)
    (e : E) (r : RuleId) (wait cb keep : Bool)
    (h1 : findFirst reg (reg.idsOf r)
      (fun s => s.state = SState.suspended && cmp r s.event e) = none)
    (h2 : findFirst reg (reg.idsOf r)
      (fun s => s.state = SState.spare && cmp r s.event e) = none)
    (h3 : findFirst reg (reg.idsOf r)
      (fun s => s.state = SState.working && cmp r s.event e) = none) :
    getFn cmp reg e (some r) wait cb keep =
      { reg := { sessions := reg.sessions ++ [mkSession e (some r) keep],
                 instances := setIds reg.instances r
                   ((reg.idsOf r).filter (nonExpired reg) ++
                     [reg.sessions.length]) },
        out := GetOutcome.ret (some reg.sessions.length),
        nowaitCbCalled := false } := by
  simp only [getFn, h1, h2, h3]

/-- C1: registry membership amended.  `expire()` does not remove the session
from `registry[rule]`: the state-machine transition mutates the aliased
session object and leaves `__instances__` untouched, so an Expired session
remains a member.  Removal is lazy: when a later `Session.get` on the same
rule reaches its creation path (no suspended, spare or working session
matched), every id whose session is Expired is dropped from
`registry[rule]`, the fresh session is registered, and afterwards no member
of `registry[rule]` is Expired. -/
theorem C1_registry_membership (cmp : RuleId → Nat → Nat → Bool)
    (reg : Registry Nat) (e : Nat) (r : RuleId) (wait cb keep : Bool)
    (i : SId) (reg2 : Registry Nat) (effs : List SigEff) :
    (expireInReg reg i = Except.ok (reg2, effs) →
      reg2.instances = reg.instances) ∧
    (findFirst reg (reg.idsOf r)
        (fun s => s.state = SState.suspended && cmp r s.event e) = none →
     findFirst reg (reg.idsOf r)
        (fun s => s.state = SState.spare && cmp r s.event e) = none →
     findFirst reg (reg.idsOf r)
        (fun s => s.state = SState.working && cmp r s.event e) = none →
     (getFn cmp reg e (some r) wait cb keep).reg.idsOf r =
        (reg.idsOf r).filter (nonExpired reg) ++ [reg.sessions.length] ∧
     ((getFn cmp reg e (some r) wait cb keep).reg.idsOf r).all
        (nonExpired (getFn cmp reg e (some r) wait cb keep).reg) = true) := by
  constructor
  · intro h
    rcases hat : reg.at? i with _ | s
    · simp [expireInReg, hat] at h
    · rcases hop : opExpire s with e1 | ⟨s1, effs1⟩
      · simp [expireInReg, hat, hop] at h
      · simp only [expireInReg, hat, hop, Except.ok.injEq, Prod.mk.injEq] at h
        obtain ⟨hr1, _⟩ := h
        subst hr1
        rfl
  · intro h1 h2 h3
    have hreg : (getFn cmp reg e (some r) wait cb keep).reg =
        { sessions := reg.sessions ++ [mkSession e (some r) keep],
          instances := setIds reg.instances r
            ((reg.idsOf r).filter (nonExpired reg) ++ [reg.sessions.length]) } := by
      rw [getFn_create cmp reg e r wait cb keep h1 h2 h3]
    constructor
    · rw [hreg]
      exact idsOf_setIds _ _ _ _
    · rw [hreg, idsOf_setIds, List.all_eq_true]
      intro j hj
      have hat2 : Registry.at?
          { sessions := reg.sessions ++ [mkSession e (some r) keep],
            instances := setIds reg.instances r
              ((reg.idsOf r).filter (nonExpired reg) ++ [reg.sessions.length]) } j
          = (reg.sessions ++ [mkSession e (some r) keep]).get? j := rfl
      rcases List.mem_append.mp hj with hjk | hjs
      · obtain ⟨hjids, hpj⟩ := List.mem_filter.mp hjk
        rcases hat : reg.at? j with _ | s
        · have hlen : reg.sessions.length ≤ j := List.get?_eq_none.mp hat
          rcases Nat.eq_or_lt_of_le hlen with heq | hlt
          · simp only [nonExpired]
            rw [hat2, ← heq, List.get?_concat_length]
            rfl
          · have hnone :
                (reg.sessions ++ [mkSession e (some r) keep]).get? j = none := by
              rw [List.get?_append_right hlen]
              exact List.get?_eq_none.mpr (by simp; omega)
            simp only [nonExpired]
            rw [hat2, hnone]
        · have hlt : j < reg.sessions.length := by
            rcases List.get?_eq_some.mp hat with ⟨hl, _⟩
            exact hl
          simp only [nonExpired] at hpj ⊢
          rw [hat] at hpj
          rw [hat2, List.get?_append hlt]
          have hsj : reg.sessions.get? j = some s := hat
          rw [hsj]
          exact hpj
      · have hjeq : j = reg.sessions.length := by simpa using hjs
        subst hjeq
        simp only [nonExpired]
        rw [hat2, List.get?_concat_length]
        rfl

/-- C1 witness: the amended theorem applied to a registry holding one
expired session under rule 0 and a `get` whose rule never matches: the
creation path drops the expired id and registers only the fresh session. -/
theorem C1_registry_membership_witness :
    (getFn (fun _ _ _ => false)
        (Registry.mk [{ event := 0, rule := some 0, keep := false,
                        state := SState.expired }] [(0, [0])] : Registry Nat)
        1 (some 0) true false false).reg.idsOf 0 =
      List.filter
        (nonExpired
          (Registry.mk [{ event := 0, rule := some 0, keep := false,
                          state := SState.expired }] [(0, [0])] : Registry Nat))
        ((Registry.mk [{ event := 0, rule := some 0, keep := false,
                         state := SState.expired }] [(0, [0])] : Registry Nat).idsOf 0)
        ++ [1] ∧
    ((getFn (fun _ _ _ => false)
        (Registry.mk [{ event := 0, rule := some 0, keep := false,
                        state := SState.expired }] [(0, [0])] : Registry Nat)
        1 (some 0) true false false).reg.idsOf 0).all
      (nonExpired (getFn (fun _ _ _ => false)
        (Registry.mk [{ event := 0, rule := some 0, keep := false,
                        state := SState.expired }] [(0, [0])] : Registry Nat)
        1 (some 0) true false false).reg) = true := by
  have h := (C1_registry_membership (fun _ _ _ => false)
    (Registry.mk [{ event := 0, rule := some 0, keep := false,
                    state := SState.expired }] [(0, [0])]) 1 0 true false false
    0 (Registry.empty Nat) []).2 (by decide) (by decide) (by decide)
  exact ⟨h.1, h.2⟩

/-- C1 counterexample: a session is created and registered under rule 0 by
`Session.get`; a subsequent `expire()` moves it to Expired and notifies
`refresh_cond` but leaves it registered — `registry[0]` still contains the
session while its state is Expired, so membership is not equivalent to
being in a live state and removal does not happen on entry to Expired. -/
theorem C1_counterexample :
    (getFn (fun _ _ _ => true) (Registry.empty Nat) 0 (some 0) true false
        false).reg =
      Registry.mk [{ event := 0, rule := some 0, keep := false,
                     state := SState.working }] [(0, [0])] ∧
    expireInReg
      (Registry.mk [{ event := 0, rule := some 0, keep := false,
                      state := SState.working }] [(0, [0])]) 0 =
      Except.ok (Registry.mk [{ event := 0, rule := some 0, keep := false,
                                state := SState.expired }] [(0, [0])],
                 [SigEff.notifyRefresh]) ∧
    (Registry.mk [{ event := 0, rule := some 0, keep := false,
                    state := SState.expired }] [(0, [0])] : Registry Nat).idsOf 0
      = [0] := by
  refine ⟨?_, ?_, ?_⟩ <;> rfl

/-- C4: wakeup preempts creation.  When the suspended scan of `Session.get`
finds a first Suspended session `S` with `rule.compare(S.event, event)`
true, `get` calls `wakeup(event)` on `S` — which binds the new event, moves
`S` to Working and notifies `wakeup_cond` — and returns `None`; the heap
does not grow and `__instances__` is untouched, so no new session is
created or registered for that event. -/
theorem C4_wakeup_preempts (cmp : RuleId → Nat → Nat → Bool)
    (reg : Registry Nat) (e : Nat) (r : RuleId) (wait cb keep : Bool)
    (i : SId) (s : MSession Nat)
    (hfind : findFirst reg (reg.idsOf r)
      (fun s => s.state = SState.suspended && cmp r s.event e) = some i)
    (hat : reg.at? i = some s) :
    getFn cmp reg e (some r) wait cb keep =
      { reg := reg.setAt i { s with event := e, state := SState.working },
        out := GetOutcome.ret none, nowaitCbCalled := false } ∧
    s.state = SState.suspended ∧ cmp r s.event e = true ∧
    opWakeup s e = Except.ok ({ s with event := e, state := SState.working },
      [SigEff.notifyWakeup]) ∧
    (reg.setAt i { s with event := e, state := SState.working }).sessions.length
      = reg.sessions.length ∧
    (reg.setAt i { s with event := e, state := SState.working }).instances
      = reg.instances ∧
    (reg.setAt i { s with event := e, state := SState.working }).at? i =
      some { s with event := e, state := SState.working } := by
  have hfind2 := hfind
  simp only [findFirst] at hfind2
  have hp := List.find?_some hfind2
  simp only [hat, Bool.and_eq_true, decide_eq_true_eq] at hp
  have hsusp : s.state = SState.suspended := hp.1
  have hcmp : cmp r s.event e = true := hp.2
  refine ⟨?_, hsusp, hcmp, ?_, ?_, rfl, ?_⟩
  · simp only [getFn, hfind, hat]
  · simp only [opWakeup, hsusp]
  · simp [Registry.setAt, List.length_set]
  · have hlt : i < reg.sessions.length := by
      rcases List.get?_eq_some.mp hat with ⟨hl, _⟩
      exact hl
    simp only [Registry.setAt, Registry.at?]
    exact List.get?_set_eq_of_lt _ hlt

/-- C4 witness: the wakeup theorem applied to a registry holding one
Suspended session under rule 0 and a rule that always matches. -/
theorem C4_wakeup_preempts_witness :
    getFn (fun _ _ _ => true)
      (Registry.mk [{ event := 5, rule := some 0, keep := false,
                      state := SState.suspended }] [(0, [0])] : Registry Nat)
      9 (some 0) true false false =
      { reg := (Registry.mk [{ event := 5, rule := some 0, keep := false,
                               state := SState.suspended }] [(0, [0])] :
          Registry Nat).setAt 0
            { event := 9, rule := some 0, keep := false,
              state := SState.working },
        out := GetOutcome.ret none, nowaitCbCalled := false } :=
  (C4_wakeup_preempts (fun _ _ _ => true)
    (Registry.mk [{ event := 5, rule := some 0, keep := false,
                    state := SState.suspended }] [(0, [0])]) 9 0 true false false
    0 { event := 5, rule := some 0, keep := false, state := SState.suspended }
    (by decide) (by decide)).1

end Melobot
